import Mathlib

/-!
Shallow embedding of the Proof-Of-Compute-Integrity verification-and-trust
engine. Python floats are modelled as exact rationals (ℚ): every constant in
the source is a short decimal, and every claim is an order/equality statement
on such values, so exact arithmetic is the faithful model. Python dicts are
modelled as association lists (`List (key × value)`) with `List.lookup`;
sets are modelled as duplicate-free lists with membership. The wall clock
(`time.time()` / `datetime.now`) and the random generator are passed in as
explicit arguments, mirroring the spec's "fixed clock" discipline.
-/

namespace PoCI

/-! ### controller.py -/

/-- Per-identity trust state: `{'weight': float, 'theta': float}`. -/
structure TrustPair where
  weight : ℚ
  theta : ℚ
deriving Repr, DecidableEq

/-- `Controller.state`: dict `model_id -> {'weight', 'theta'}`. -/
abbrev CtrlState := List (String × TrustPair)

namespace Controller

/-- The lower clamp `max(0.5, ...)` applied to theta in `Controller.update`. -/
def theta_min : ℚ := 1/2

/-- The upper clamp `min(5.0, ...)` applied to theta in `Controller.update`. -/
def theta_max : ℚ := 5

/-- `Controller._ensure`: insert `{"weight": 1.0, "theta": 1.0}` on first
reference to a `model_id`. -/
def ensure (st : CtrlState) (model_id : String) : CtrlState :=
  if (st.lookup model_id).isSome then st else (model_id, ⟨1, 1⟩) :: st

/-- One application of the update law of `Controller.update` to a single
record: `valid` adds 0.03 to weight (capped at 1.0) and subtracts 0.08 from
theta (floored at 0.5); `invalid` subtracts 0.10 from weight (floored at 0.0)
and adds 0.30 to theta (capped at 5.0). -/
def stepTrust (tp : TrustPair) (valid : Bool) : TrustPair :=
  if valid then
    ⟨min 1 (tp.weight + 3/100), max theta_min (tp.theta - 8/100)⟩
  else
    ⟨max 0 (tp.weight - 10/100), min theta_max (tp.theta + 30/100)⟩

/-- `Controller.update`: ensure the record exists, then apply the update law
to that identity's record in place. -/
def update (st : CtrlState) (model_id : String) (valid : Bool) : CtrlState :=
  (ensure st model_id).map
    (fun p => if p.1 = model_id then (p.1, stepTrust p.2 valid) else p)

/-- `Controller.get`: ensure the record exists, return (new state, pair).
The Python method mutates `self.state` via `_ensure` and returns the pair;
the state component makes that mutation explicit. -/
def get (st : CtrlState) (model_id : String) : CtrlState × TrustPair :=
  let st' := ensure st model_id
  (st', (st'.lookup model_id).getD ⟨1, 1⟩)

end Controller

/-! ### poci_demo.py — batch / consistency form -/

/-- `TrustState` dataclass of poci_demo.py: strictness `theta`, weight `w`. -/
structure TrustState where
  theta : ℚ
  w : ℚ
deriving Repr, DecidableEq

/-- `update_trust_state(state, s_t, eta=0.1, lam=0.9)`:
`L_t = 1 - s_t`; `theta += eta * (L_t - 0.5)`; `w = lam*w + (1-lam)*s_t`. -/
def update_trust_state (state : TrustState) (s_t : ℚ) (eta : ℚ := 1/10)
    (lam : ℚ := 9/10) : TrustState :=
  let L_t : ℚ := 1 - s_t
  { theta := state.theta + eta * (L_t - 1/2)
    w := lam * state.w + (1 - lam) * s_t }

/-! ### Reason codes

The pipelines report their decision in the printed line; `poci_demosim.py`
uses the stable spellings `BAD_SIGNATURE`, `REPLAY`, `TIME_FUTURE`,
`TIME_BACKDATED`, `OK`; `poci_demotiming.py` prints the same outcomes as
`BAD_SIGNATURE`, `REPLAY_DETECTED`, `TIMESTAMP_TOO_FAR_IN_FUTURE`,
`TIMESTAMP_BACKDATED`. One enum covers both, with the stable spelling. -/

inductive Reason
  | OK
  | BAD_SIGNATURE
  | REPLAY
  | TIME_FUTURE
  | TIME_BACKDATED
deriving Repr, DecidableEq

/-! ### poci_demotiming.py -/

namespace poci_demotiming

/-- `verify_signature(model_key, signature, message)`: simulated scheme,
valid iff `signature == f"{model_key}:{message}"`. -/
def verify_signature (model_key signature message : String) : Bool :=
  signature == model_key ++ ":" ++ message

/-- `Step` object; the `phase` field is only interpolated into print
statements and carries no verification semantics, so it is omitted. -/
structure Step where
  index : Nat
  hash : String
  signature : String
  model_id : String
  timestamp : Int
deriving Repr, DecidableEq

/-- Update law of this file's `PerModelController.update` (reward 0.05 /
penalty 0.10 on weight; 0.1 / 0.3 on theta, clamped to [0,1] and [0.5,5]). -/
def stepTrustTiming (tp : TrustPair) (valid : Bool) : TrustPair :=
  if valid then
    ⟨min 1 (tp.weight + 5/100), max (1/2) (tp.theta - 1/10)⟩
  else
    ⟨max 0 (tp.weight - 1/10), min 5 (tp.theta + 3/10)⟩

/-- `PerModelController.update` of poci_demotiming.py; `_ensure` is
textually identical to `Controller._ensure` of controller.py. -/
def updateTiming (st : CtrlState) (model_id : String) (valid : Bool) : CtrlState :=
  (Controller.ensure st model_id).map
    (fun p => if p.1 = model_id then (p.1, stepTrustTiming p.2 valid) else p)

def MAX_FUTURE_DRIFT : Int := 30
def MAX_BACKWARD_DRIFT : Int := 10

/-- The module-level mutable state of poci_demotiming.py: the controller
dict, `last_timestamp` dict and the `used_proofs` set (modelled as a list
to which elements are only consed when absent). Dict assignment is
modelled as a shadowing cons: `List.lookup` returns the newest binding. -/
structure TimingState where
  ctrl : CtrlState
  last_timestamp : List (String × Int)
  used_proofs : List (String × String × String)
deriving Repr, DecidableEq

/-- Fresh module state: empty dicts, empty used-proof set. -/
def initState : TimingState := ⟨[], [], []⟩

/-- The step-4 condition of `verify_step`: a last timestamp exists and
`step.timestamp + MAX_BACKWARD_DRIFT < last_t`. -/
def backdated (st : TimingState) (model_id : String) (ts : Int) : Bool :=
  match st.last_timestamp.lookup model_id with
  | some last_t => decide (ts + MAX_BACKWARD_DRIFT < last_t)
  | none => false

/-- `verify_step(step, global_time)`. The `MODEL_KEYS` dict is the
read-only registry `keys` (the demo registers every submitting model's key
before use). Returns the new module state, the returned bool, and the
printed reason code. -/
def verify_step (keys : String → String) (st : TimingState) (step : Step)
    (global_time : Int) : TimingState × Bool × Reason :=
  let model_id := step.model_id
  let key := keys model_id
  let message := step.hash
  if ¬ verify_signature key step.signature message then
    ({st with ctrl := updateTiming st.ctrl model_id false}, false, .BAD_SIGNATURE)
  else
    let proof_id := (model_id, step.hash, step.signature)
    if proof_id ∈ st.used_proofs then
      ({st with ctrl := updateTiming st.ctrl model_id false}, false, .REPLAY)
    else if step.timestamp > global_time + MAX_FUTURE_DRIFT then
      ({st with ctrl := updateTiming st.ctrl model_id false}, false, .TIME_FUTURE)
    else if backdated st model_id step.timestamp then
      ({st with ctrl := updateTiming st.ctrl model_id false}, false, .TIME_BACKDATED)
    else
      ({ ctrl := updateTiming st.ctrl model_id true,
         last_timestamp := (model_id, step.timestamp) :: st.last_timestamp,
         used_proofs := proof_id :: st.used_proofs }, true, .OK)

end poci_demotiming

/-! ### poci_demosim.py -/

namespace poci_demosim

/-- `verify_signature(key, signature, message)` of poci_demosim.py. -/
def verify_signature (key signature message : String) : Bool :=
  signature == key ++ ":" ++ message

/-- `verify_event(global_step, model, phase, timestamp, h, sig)`.
`global_step`, `phase` and the model object beyond its `model_id` only
feed prints; the module state has the same shape as the timing demo's, and
this file's `PerModelController.update` uses the same constants as
controller.py, so `Controller.update` is reused. Note the source sets
`global_time = timestamp` before the future check. -/
def verify_event (keys : String → String) (st : poci_demotiming.TimingState)
    (model_id : String) (timestamp : Int) (h sig : String) :
    poci_demotiming.TimingState × Bool × Reason :=
  let key := keys model_id
  if ¬ verify_signature key sig h then
    ({st with ctrl := Controller.update st.ctrl model_id false}, false, .BAD_SIGNATURE)
  else
    let pid := (model_id, h, sig)
    if pid ∈ st.used_proofs then
      ({st with ctrl := Controller.update st.ctrl model_id false}, false, .REPLAY)
    else
      let global_time := timestamp
      if timestamp > global_time + poci_demotiming.MAX_FUTURE_DRIFT then
        ({st with ctrl := Controller.update st.ctrl model_id false}, false, .TIME_FUTURE)
      else if poci_demotiming.backdated st model_id timestamp then
        ({st with ctrl := Controller.update st.ctrl model_id false}, false, .TIME_BACKDATED)
      else
        ({ ctrl := Controller.update st.ctrl model_id true,
           last_timestamp := (model_id, timestamp) :: st.last_timestamp,
           used_proofs := pid :: st.used_proofs }, true, .OK)

end poci_demosim

/-! ### PyNaCl (third-party dependency of crypto_utils.py)

`nacl.signing.VerifyKey.verify(smessage, signature)` with a detached
signature first checks `len(signature) == crypto_sign_BYTES` (= 64) and
raises `nacl.exceptions.ValueError` when the length differs; only then does
`crypto_sign_open` run, which returns the message on success and raises
`nacl.exceptions.BadSignatureError` on an invalid 64-byte signature.
Ed25519 acceptance itself is abstracted: a key is modelled by its
acceptance predicate over (message, signature) byte strings. Bytes are
`List Nat` with entries < 256 at use sites. -/

namespace pynacl

inductive NaClError
  | BadSignatureError
  | ValueError
deriving Repr, DecidableEq

/-- A verify key, abstracted to the signature-acceptance predicate of the
underlying Ed25519 public key. -/
structure VerifyKey where
  accepts : List Nat → List Nat → Bool

/-- `VerifyKey.verify(message, signature)` (detached form, RawEncoder). -/
def VerifyKey.verify (vk : VerifyKey) (message signature : List Nat) :
    Except NaClError (List Nat) :=
  if signature.length ≠ 64 then
    .error .ValueError
  else if vk.accepts message signature then
    .ok message
  else
    .error .BadSignatureError

end pynacl

/-! ### crypto_utils.py -/

namespace crypto_utils

/-- `verify_signature(vk, message, signature)`: calls `vk.verify` in a
`try`, returns `True` on success, `False` on `BadSignatureError`; any other
exception (here: the `ValueError` for a signature whose length is not 64)
propagates to the caller, modelled by `Except.error`. -/
def verify_signature (vk : pynacl.VerifyKey) (message signature : List Nat) :
    Except pynacl.NaClError Bool :=
  match vk.verify message signature with
  | .ok _ => .ok true
  | .error .BadSignatureError => .ok false
  | .error e => .error e

/-- UTF-8 bytes of a string; for the ASCII strings used throughout the
repository `Char.toNat` per character is exactly the UTF-8 encoding. -/
def strBytes (s : String) : List Nat := s.data.map Char.toNat

/-- `n.to_bytes(w, "big")`: big-endian fixed-width byte encoding. -/
def natBytesBE (w n : Nat) : List Nat :=
  (List.range w).map (fun i => n / 256 ^ (w - 1 - i) % 256)

/-- The byte string accumulated into blake2b by `hash_payload`:
`model_id.encode() ‖ index.to_bytes(8,"big") ‖ prev_hash.encode() ‖
payload ‖ ts.to_bytes(8,"big")` — a raw concatenation with no separators.
`index` and `ts` are nonnegative at every call site (`to_bytes` would raise
on a negative int), so they are `Nat`. -/
def hashInput (model_id : String) (index : Nat) (prev_hash : String)
    (payload : List Nat) (ts : Nat) : List Nat :=
  strBytes model_id ++ natBytesBE 8 index ++ strBytes prev_hash ++
    payload ++ natBytesBE 8 ts

/-- `hash_payload(model_id, index, prev_hash, payload, ts)`: the hex digest
of blake2b-256 over `hashInput`. The digest function itself is the
parameter `blake2b`; every claim about `hash_payload` concerns only which
bytes it digests and its purity. -/
def hash_payload (blake2b : List Nat → String) (model_id : String)
    (index : Nat) (prev_hash : String) (payload : List Nat) (ts : Nat) : String :=
  blake2b (hashInput model_id index prev_hash payload ts)

end crypto_utils

/-! ### models.py / run_demo.py canonical signing message -/

namespace models

/-- models.py, `make_event`: the message the identity signs,
`f"{self.model_id}|{self.index}|{prev}|{payload_h}|{ts}".encode()`. -/
def msg_bytes (model_id : String) (index : Nat) (prev payload_h : String)
    (ts : Nat) : List Nat :=
  crypto_utils.strBytes
    (model_id ++ "|" ++ toString index ++ "|" ++ prev ++ "|" ++ payload_h ++
      "|" ++ toString ts)

end models

namespace run_demo

/-- run_demo.py, `verify_event`: the verifier's reconstruction of the
message that should have been signed,
`f"{event.model_id}|{event.index}|{event.prev_hash}|{event.payload_hash}|{event.ts}".encode()`. -/
def msg_bytes (model_id : String) (index : Nat) (prev_hash payload_hash : String)
    (ts : Nat) : List Nat :=
  crypto_utils.strBytes
    (model_id ++ "|" ++ toString index ++ "|" ++ prev_hash ++ "|" ++
      payload_hash ++ "|" ++ toString ts)

end run_demo

/-! ### lineage.py -/

namespace lineage

/-- `Event` dataclass of lineage.py. -/
structure Event where
  model_id : String
  index : Nat
  ts : Nat
  payload_hash : String
  prev_hash : String
  event_hash : String
  signature : List Nat
deriving Repr, DecidableEq

/-- `LineageStore.events_by_model`: dict model_id -> list of events. -/
structure LineageStore where
  events_by_model : List (String × List Event)
deriving Repr, DecidableEq

/-- `LineageStore.append`: `setdefault(model_id, []).append(event)`. -/
def LineageStore.append (st : LineageStore) (event : Event) : LineageStore :=
  match st.events_by_model.lookup event.model_id with
  | some evs =>
      ⟨(event.model_id, evs ++ [event]) :: st.events_by_model⟩
  | none =>
      ⟨(event.model_id, [event]) :: st.events_by_model⟩

/-- `LineageStore.last_hash`: `"GENESIS"` when the identity has no events,
else the last event's `event_hash`. -/
def LineageStore.last_hash (st : LineageStore) (model_id : String) : String :=
  match (st.events_by_model.lookup model_id).getD [] with
  | [] => "GENESIS"
  | evs => (evs.getLast?).getD ⟨"", 0, 0, "", "", "", []⟩ |>.event_hash

end lineage

/-! ### poci_demoreplay.py -/

namespace poci_demoreplay

/-- The replay demo's single-identity `Controller`: score `s`, weight `w`,
strictness `theta` and the `proof_cache` replay detector (a set of proof
hashes, modelled as a duplicate-free list). -/
structure Controller where
  theta : ℚ
  w : ℚ
  s : ℚ
  proof_cache : List String
deriving Repr, DecidableEq

/-- `Controller.__init__`: theta=1.0, w=1.0, s=0.0, empty cache. -/
def Controller.init : Controller := ⟨1, 1, 0, []⟩

/-- `Controller.update(sig_good)` of poci_demoreplay.py. -/
def Controller.update (c : Controller) (sig_good : Bool) : Controller :=
  if sig_good then
    { c with s := min 1 (c.s + 1/10), w := min 1 (c.w + 5/100),
             theta := max 1 (c.theta - 1/10) }
  else
    { c with s := max 0 (c.s - 2/10), w := max 0 (c.w - 15/100),
             theta := min 10 (c.theta + 5/10) }

/-- `check_timestamp(event_ts_iso, max_drift_sec=30)`: the ISO datetime and
`datetime.now(UTC)` are modelled as integer seconds; the check is
`abs(now - event_ts) <= max_drift_sec`. -/
def check_timestamp (event_ts now : Int) (max_drift_sec : Int := 30) : Bool :=
  |now - event_ts| ≤ max_drift_sec

/-- `verify_proof(controller, proof)`: computes `ts_good` and `replay`,
then adds the proof hash to the cache unconditionally ("Add to cache AFTER
check"), and returns `(sig_good, replay)` where
`sig_good = ts_good and not replay`. Set-add is cons-if-absent. -/
def verify_proof (c : Controller) (proof_hash : String) (ts now : Int) :
    Controller × Bool × Bool :=
  let ts_good := check_timestamp ts now
  let replay := proof_hash ∈ c.proof_cache
  let c' := { c with proof_cache :=
    if proof_hash ∈ c.proof_cache then c.proof_cache
    else proof_hash :: c.proof_cache }
  (c', ts_good && !replay, replay)

end poci_demoreplay

/-! ### Derived definitions used by the theorems -/

/-- The invariant of §8: weight in [0,1], theta in [theta_min, theta_max]. -/
def InBounds (tp : TrustPair) : Prop :=
  0 ≤ tp.weight ∧ tp.weight ≤ 1 ∧
    Controller.theta_min ≤ tp.theta ∧ tp.theta ≤ Controller.theta_max

instance (tp : TrustPair) : Decidable (InBounds tp) := by
  unfold InBounds; infer_instance

/-- Every record in the controller state is in bounds. -/
def BoundedState (st : CtrlState) : Prop := ∀ p ∈ st, InBounds p.2

/-- Fold a whole submission outcome sequence through `Controller.update`,
starting from the freshly constructed controller (empty dict). -/
def runController (seq : List (String × Bool)) : CtrlState :=
  seq.foldl (fun st p => Controller.update st p.1 p.2) []

/-- Fold a sequence of consistency scores through the batch form
`update_trust_state` with its default `eta`/`lam`. -/
def runBatch (scores : List ℚ) (st0 : TrustState) : TrustState :=
  scores.foldl (fun st s => update_trust_state st s) st0

/-- Feed a submission sequence (step, global_time) through `verify_step`
from the fresh module state, collecting each call's (returned bool, reason)
outcome: one engine-instance run. -/
def runTiming (keys : String → String)
    (steps : List (poci_demotiming.Step × Int)) :
    poci_demotiming.TimingState × List (Bool × Reason) :=
  steps.foldl
    (fun acc p =>
      let r := poci_demotiming.verify_step keys acc.1 p.1 p.2
      (r.1, acc.2 ++ [(r.2.1, r.2.2)]))
    (poci_demotiming.initState, [])

/-- Modelled from the spec: the required check order of §4.4 — signature
validity, then replay, then future bound, then backdated bound, returning
the first failing check's reason (refinement spec side, to compare with the
pipelines embedded from the source). -/
def specOrder (sig_valid replayed future backdated : Bool) : Reason :=
  if ¬ sig_valid then .BAD_SIGNATURE
  else if replayed then .REPLAY
  else if future then .TIME_FUTURE
  else if backdated then .TIME_BACKDATED
  else .OK

/-! ### Concrete fixtures for witnesses and counterexamples -/

/-- A registry assigning key "K" to every identity. -/
def keysK : String → String := fun _ => "K"

/-- An honestly signed step for identity "m" at time 1000. -/
def stepM : poci_demotiming.Step := ⟨0, "h", "K:h", "m", 1000⟩

/-- A step whose signature is invalid for key "K". -/
def stepBad : poci_demotiming.Step := ⟨0, "h", "bad", "m", 1000⟩

/-- An honestly signed step timestamped 1000 s past a reference time of
1000, beyond MAX_FUTURE_DRIFT = 30. -/
def stepFuture : poci_demotiming.Step := ⟨0, "h", "K:h", "m", 2000⟩

/-- 10 submissions alternating valid/invalid (cheat on odd steps, as in
run_demo.py phase 2). -/
def altFlags : List Bool :=
  [true, false, true, false, true, false, true, false, true, false]

/-- 10 consecutive valid submissions. -/
def goodFlags : List Bool := List.replicate 10 true

/-- A verify key that accepts every (message, signature) pair. -/
def vkAll : pynacl.VerifyKey := ⟨fun _ _ => true⟩

/-- A verify key that rejects every (message, signature) pair. -/
def vkNone : pynacl.VerifyKey := ⟨fun _ _ => false⟩

/-! ### Helper lemmas -/

lemma inBounds_init : InBounds ⟨1, 1⟩ := by
  constructor
  · norm_num
  refine ⟨le_refl 1, ?_, ?_⟩ <;> norm_num [Controller.theta_min, Controller.theta_max]

lemma stepTrust_inBounds {tp : TrustPair} (h : InBounds tp) (v : Bool) :
    InBounds (Controller.stepTrust tp v) := by
  obtain ⟨hw0, hw1, ht0, ht1⟩ := h
  unfold InBounds Controller.stepTrust Controller.theta_min Controller.theta_max at *
  cases v with
  | false =>
    simp only [Bool.false_eq_true, if_false]
    exact ⟨le_max_left _ _, max_le (by norm_num) (by linarith),
      le_min (by norm_num) (by linarith), min_le_left _ _⟩
  | true =>
    simp only [if_true]
    exact ⟨le_min (by norm_num) (by linarith), min_le_left _ _,
      le_max_left _ _, max_le (by norm_num) (by linarith)⟩

lemma boundedState_nil : BoundedState [] :=
  fun p hp => absurd hp (List.not_mem_nil p)

lemma boundedState_ensure {st : CtrlState} (h : BoundedState st) (mid : String) :
    BoundedState (Controller.ensure st mid) := by
  unfold Controller.ensure
  split
  · exact h
  · intro p hp
    rcases List.mem_cons.mp hp with rfl | hp
    · exact inBounds_init
    · exact h p hp

lemma boundedState_update {st : CtrlState} (h : BoundedState st)
    (mid : String) (v : Bool) : BoundedState (Controller.update st mid v) := by
  unfold Controller.update
  intro p hp
  rcases List.mem_map.mp hp with ⟨q, hq, rfl⟩
  have hq' := boundedState_ensure h mid q hq
  split
  · exact stepTrust_inBounds hq' v
  · exact hq'

lemma boundedState_foldl (seq : List (String × Bool)) (st : CtrlState)
    (h : BoundedState st) :
    BoundedState (seq.foldl (fun st p => Controller.update st p.1 p.2) st) := by
  induction seq generalizing st with
  | nil => exact h
  | cons p rest ih => exact ih _ (boundedState_update h p.1 p.2)

lemma runController_bounded (seq : List (String × Bool)) :
    BoundedState (runController seq) :=
  boundedState_foldl seq [] boundedState_nil

lemma update_trust_state_w_mem {st : TrustState} {s : ℚ}
    (hw0 : 0 ≤ st.w) (hw1 : st.w ≤ 1) (hs0 : 0 ≤ s) (hs1 : s ≤ 1) :
    0 ≤ (update_trust_state st s).w ∧ (update_trust_state st s).w ≤ 1 := by
  unfold update_trust_state
  constructor <;> simp only <;> nlinarith

lemma runBatch_w_mem (scores : List ℚ) (st0 : TrustState)
    (h0 : 0 ≤ st0.w) (h1 : st0.w ≤ 1)
    (hs : ∀ s ∈ scores, 0 ≤ s ∧ s ≤ 1) :
    0 ≤ (runBatch scores st0).w ∧ (runBatch scores st0).w ≤ 1 := by
  unfold runBatch
  induction scores generalizing st0 with
  | nil => exact ⟨h0, h1⟩
  | cons s rest ih =>
    have hsm := hs s (List.mem_cons_self s rest)
    have hstep := update_trust_state_w_mem h0 h1 hsm.1 hsm.2
    exact ih _ hstep.1 hstep.2 (fun x hx => hs x (List.mem_cons_of_mem s hx))

lemma strBytes_append (s t : String) :
    crypto_utils.strBytes (s ++ t) =
      crypto_utils.strBytes s ++ crypto_utils.strBytes t := by
  simp [crypto_utils.strBytes, String.data_append]

namespace poci_demotiming

lemma verify_step_badsig {keys st step gt}
    (h1 : verify_signature (keys step.model_id) step.signature step.hash = false) :
    verify_step keys st step gt =
      ({st with ctrl := updateTiming st.ctrl step.model_id false}, false,
        Reason.BAD_SIGNATURE) := by
  unfold verify_step
  simp [h1]

lemma verify_step_replay {keys st step gt}
    (h1 : verify_signature (keys step.model_id) step.signature step.hash = true)
    (h2 : (step.model_id, step.hash, step.signature) ∈ st.used_proofs) :
    verify_step keys st step gt =
      ({st with ctrl := updateTiming st.ctrl step.model_id false}, false,
        Reason.REPLAY) := by
  unfold verify_step
  simp [h1, h2]

lemma verify_step_future {keys st step gt}
    (h1 : verify_signature (keys step.model_id) step.signature step.hash = true)
    (h2 : (step.model_id, step.hash, step.signature) ∉ st.used_proofs)
    (h3 : step.timestamp > gt + MAX_FUTURE_DRIFT) :
    verify_step keys st step gt =
      ({st with ctrl := updateTiming st.ctrl step.model_id false}, false,
        Reason.TIME_FUTURE) := by
  unfold verify_step
  simp [h1, h2, h3]

lemma verify_step_backdated {keys st step gt}
    (h1 : verify_signature (keys step.model_id) step.signature step.hash = true)
    (h2 : (step.model_id, step.hash, step.signature) ∉ st.used_proofs)
    (h3 : ¬ step.timestamp > gt + MAX_FUTURE_DRIFT)
    (h4 : backdated st step.model_id step.timestamp = true) :
    verify_step keys st step gt =
      ({st with ctrl := updateTiming st.ctrl step.model_id false}, false,
        Reason.TIME_BACKDATED) := by
  unfold verify_step
  simp [h1, h2, h3, h4]

lemma verify_step_ok {keys st step gt}
    (h1 : verify_signature (keys step.model_id) step.signature step.hash = true)
    (h2 : (step.model_id, step.hash, step.signature) ∉ st.used_proofs)
    (h3 : ¬ step.timestamp > gt + MAX_FUTURE_DRIFT)
    (h4 : backdated st step.model_id step.timestamp = false) :
    verify_step keys st step gt =
      ({ ctrl := updateTiming st.ctrl step.model_id true,
         last_timestamp := (step.model_id, step.timestamp) :: st.last_timestamp,
         used_proofs :=
           (step.model_id, step.hash, step.signature) :: st.used_proofs },
        true, Reason.OK) := by
  unfold verify_step
  simp [h1, h2, h3, h4]

end poci_demotiming

namespace poci_demosim

lemma verify_event_badsig {keys st model_id ts h sig}
    (h1 : verify_signature (keys model_id) sig h = false) :
    verify_event keys st model_id ts h sig =
      ({st with ctrl := Controller.update st.ctrl model_id false}, false,
        Reason.BAD_SIGNATURE) := by
  unfold verify_event
  simp [h1]

lemma verify_event_replay {keys st model_id ts h sig}
    (h1 : verify_signature (keys model_id) sig h = true)
    (h2 : (model_id, h, sig) ∈ st.used_proofs) :
    verify_event keys st model_id ts h sig =
      ({st with ctrl := Controller.update st.ctrl model_id false}, false,
        Reason.REPLAY) := by
  unfold verify_event
  simp [h1, h2]

lemma verify_event_backdated {keys st model_id ts h sig}
    (h1 : verify_signature (keys model_id) sig h = true)
    (h2 : (model_id, h, sig) ∉ st.used_proofs)
    (h4 : poci_demotiming.backdated st model_id ts = true) :
    verify_event keys st model_id ts h sig =
      ({st with ctrl := Controller.update st.ctrl model_id false}, false,
        Reason.TIME_BACKDATED) := by
  unfold verify_event
  have h3 : ¬ ts > ts + poci_demotiming.MAX_FUTURE_DRIFT := by
    unfold poci_demotiming.MAX_FUTURE_DRIFT; omega
  simp [h1, h2, h3, h4]

lemma verify_event_ok {keys st model_id ts h sig}
    (h1 : verify_signature (keys model_id) sig h = true)
    (h2 : (model_id, h, sig) ∉ st.used_proofs)
    (h4 : poci_demotiming.backdated st model_id ts = false) :
    verify_event keys st model_id ts h sig =
      ({ ctrl := Controller.update st.ctrl model_id true,
         last_timestamp := (model_id, ts) :: st.last_timestamp,
         used_proofs := (model_id, h, sig) :: st.used_proofs },
        true, Reason.OK) := by
  unfold verify_event
  have h3 : ¬ ts > ts + poci_demotiming.MAX_FUTURE_DRIFT := by
    unfold poci_demotiming.MAX_FUTURE_DRIFT; omega
  simp [h1, h2, h3, h4]

end poci_demosim

/-! ## Claim theorems -/

/-- C1 (counterexample): the claim also asserts the theta bound for the
batch/consistency update form, but `update_trust_state` never clamps theta:
from poci_demo.py's own initial state `TrustState(theta=0.0, w=1.0)`, a
single fully-consistent update (`s_t = 1`) leaves theta at -1/20, outside
[theta_min, theta_max] = [0.5, 5]. -/
theorem C1_counterexample_batch_theta :
    ¬ (Controller.theta_min ≤ (update_trust_state ⟨0, 1⟩ 1).theta ∧
        (update_trust_state ⟨0, 1⟩ 1).theta ≤ Controller.theta_max) := by
  intro hc
  have h1 := hc.1
  norm_num [update_trust_state, Controller.theta_min] at h1

/-- C1 (amended): for every sequence of updates from the initial state, the
incremental controller (`Controller.update`) keeps every identity's weight
in [0,1] and theta in [theta_min, theta_max] = [0.5, 5]; the
batch/consistency form (`update_trust_state`) keeps only the weight in
[0,1] (given scores in [0,1]) — its theta is unclamped. -/
theorem C1_trust_bounds :
    (∀ (seq : List (String × Bool)) (mid : String) (tp : TrustPair),
        (mid, tp) ∈ runController seq →
        0 ≤ tp.weight ∧ tp.weight ≤ 1 ∧
          Controller.theta_min ≤ tp.theta ∧ tp.theta ≤ Controller.theta_max) ∧
    (∀ (scores : List ℚ) (st0 : TrustState),
        0 ≤ st0.w → st0.w ≤ 1 → (∀ s ∈ scores, 0 ≤ s ∧ s ≤ 1) →
        0 ≤ (runBatch scores st0).w ∧ (runBatch scores st0).w ≤ 1) := by
  constructor
  · intro seq mid tp hmem
    exact runController_bounded seq (mid, tp) hmem
  · intro scores st0 h0 h1 hs
    exact runBatch_w_mem scores st0 h0 h1 hs

/-- C1 witness: after one invalid update the identity "m" holds
(weight, theta) = (9/10, 13/10), which the theorem places in bounds; one
batch update with score 1 keeps the weight in [0,1]. -/
theorem C1_trust_bounds_witness :
    (0 ≤ (TrustPair.mk (9/10) (13/10)).weight ∧
      (TrustPair.mk (9/10) (13/10)).weight ≤ 1 ∧
      Controller.theta_min ≤ (TrustPair.mk (9/10) (13/10)).theta ∧
      (TrustPair.mk (9/10) (13/10)).theta ≤ Controller.theta_max) ∧
    (0 ≤ (runBatch [1] ⟨0, 1⟩).w ∧ (runBatch [1] ⟨0, 1⟩).w ≤ 1) :=
  ⟨C1_trust_bounds.1 [("m", false)] "m" ⟨9/10, 13/10⟩ (by
      norm_num [runController, Controller.update, Controller.ensure,
        Controller.stepTrust, Controller.theta_min, Controller.theta_max,
        min_def, max_def]),
   C1_trust_bounds.2 [1] ⟨0, 1⟩ (by norm_num) (by norm_num)
     (by intro s hs; rw [List.mem_singleton] at hs; subst hs; norm_num)⟩

/-- C7: starting from the initial record (weight 1.0), 10 proofs
alternating valid/invalid under `Controller.update` (reward_w 0.03,
penalty_w 0.10) end at weight 31/50 = 0.62, strictly below the weight 1.0
of an identity with 10 consecutive valid proofs. -/
theorem C7_alternating_weight_lower :
    (Controller.get
        (altFlags.foldl (fun st v => Controller.update st "alternating" v) [])
        "alternating").2.weight <
      (Controller.get
        (goodFlags.foldl (fun st v => Controller.update st "consecutive" v) [])
        "consecutive").2.weight := by
  norm_num [altFlags, goodFlags, Controller.get, Controller.update,
    Controller.ensure, Controller.stepTrust, Controller.theta_min,
    Controller.theta_max, min_def, max_def, List.foldl, List.lookup,
    List.replicate]

/-- C8 (counterexample): the record created on first reference has
theta = 1.0, not theta at its minimum: theta_min (the clamp 0.5 of
`Controller.update`) differs from the fresh record's theta. -/
theorem C8_counterexample_fresh_theta :
    (Controller.get [] "m").2.theta = 1 ∧
      (Controller.get [] "m").2.theta ≠ Controller.theta_min := by
  norm_num [Controller.get, Controller.ensure, Controller.theta_min,
    List.lookup]

/-- C8 (amended): an Identity Record is created lazily on first reference
with weight = 1.0 and theta = 1.0 (not theta_min); the lineage store's
`last_hash` returns "GENESIS" for an unseen identity; and the fresh
engine's used-proof set (and controller dict) start empty. -/
theorem C8_lazy_creation :
    (∀ (st : CtrlState) (mid : String), st.lookup mid = none →
        (Controller.ensure st mid).lookup mid = some ⟨1, 1⟩) ∧
    (∀ (st : lineage.LineageStore) (mid : String),
        st.events_by_model.lookup mid = none →
        lineage.LineageStore.last_hash st mid = "GENESIS") ∧
    poci_demotiming.initState.used_proofs = [] ∧
    poci_demotiming.initState.ctrl = [] := by
  refine ⟨?_, ?_, rfl, rfl⟩
  · intro st mid h
    unfold Controller.ensure
    rw [h]
    simp
  · intro st mid h
    unfold lineage.LineageStore.last_hash
    rw [h]
    rfl

/-- C8 witness: first reference to "m" in an empty controller creates the
record (1, 1); an empty lineage store answers "GENESIS". -/
theorem C8_lazy_creation_witness :
    (Controller.ensure [] "m").lookup "m" = some ⟨1, 1⟩ ∧
      lineage.LineageStore.last_hash ⟨[]⟩ "m" = "GENESIS" :=
  ⟨C8_lazy_creation.1 [] "m" rfl, C8_lazy_creation.2.1 ⟨[]⟩ "m" rfl⟩

/-- C10: `Controller.get` on a known identity returns the stored
(weight, theta) pair and leaves the state exactly unchanged; on an unseen
identity the read itself inserts a record with weight = 1.0 and
theta = 1.0, leaving every other identity's binding unchanged. -/
theorem C10_get_frame :
    (∀ (st : CtrlState) (mid : String) (tp : TrustPair),
        st.lookup mid = some tp → Controller.get st mid = (st, tp)) ∧
    (∀ (st : CtrlState) (mid : String), st.lookup mid = none →
        Controller.get st mid = ((mid, ⟨1, 1⟩) :: st, ⟨1, 1⟩) ∧
          ∀ mid' : String, mid' ≠ mid →
            (((mid, (⟨1, 1⟩ : TrustPair)) :: st).lookup mid' =
              st.lookup mid')) := by
  constructor
  · intro st mid tp h
    unfold Controller.get Controller.ensure
    rw [h]
    simp [h]
  · intro st mid h
    constructor
    · unfold Controller.get Controller.ensure
      rw [h]
      simp
    · intro mid' hne
      simp [List.lookup, beq_eq_false_iff_ne.mpr hne]

/-- C10 witness: reading the known identity "m" changes nothing; reading
the unseen identity "n" inserts ("n", (1, 1)). -/
theorem C10_get_frame_witness :
    Controller.get [("m", ⟨1, 1⟩)] "m" = ([("m", ⟨1, 1⟩)], ⟨1, 1⟩) ∧
      Controller.get [] "n" = ([("n", ⟨1, 1⟩)], ⟨1, 1⟩) :=
  ⟨C10_get_frame.1 [("m", ⟨1, 1⟩)] "m" ⟨1, 1⟩ rfl,
   (C10_get_frame.2 [] "n" rfl).1⟩

/-- C2 (counterexample): the claim says a failed verification never mutates
the identity's used-proof set, but `verify_proof` of poci_demoreplay.py
adds the proof hash to `proof_cache` unconditionally: a fresh proof whose
timestamp check fails (ts = 0 against now = 100) is rejected
(`sig_good = false`) yet the cache gains its hash. -/
theorem C2_counterexample_cache_grows_on_failure :
    (poci_demoreplay.verify_proof poci_demoreplay.Controller.init "h1" 0 100).2.1 =
        false ∧
      (poci_demoreplay.verify_proof poci_demoreplay.Controller.init "h1" 0 100).1.proof_cache ≠
        poci_demoreplay.Controller.init.proof_cache := by
  constructor
  · rfl
  · intro h
    have : ("h1" :: ([] : List String)) = [] := h
    cases this

/-- C2 (amended): in `verify_step` (the timing pipeline) every failed
verification leaves `used_proofs` and `last_timestamp` untouched and only
invokes the controller update with valid = false; an accepted proof
resubmitted verbatim is rejected with REPLAY on the second call, which
mutates neither set; and in poci_demoreplay.py a replayed hash is flagged
and leaves the cache unchanged — but there a *fresh* proof failing the
timestamp check does enter the cache (see the counterexample). -/
theorem C2_failure_frame :
    (∀ (keys : String → String) (st : poci_demotiming.TimingState)
        (step : poci_demotiming.Step) (gt : Int),
        (poci_demotiming.verify_step keys st step gt).2.1 = false →
        (poci_demotiming.verify_step keys st step gt).1.used_proofs =
            st.used_proofs ∧
          (poci_demotiming.verify_step keys st step gt).1.last_timestamp =
            st.last_timestamp ∧
          (poci_demotiming.verify_step keys st step gt).1.ctrl =
            poci_demotiming.updateTiming st.ctrl step.model_id false) ∧
    (∀ (keys : String → String) (st : poci_demotiming.TimingState)
        (step : poci_demotiming.Step) (gt gt' : Int),
        (poci_demotiming.verify_step keys st step gt).2.1 = true →
        (poci_demotiming.verify_step keys
            (poci_demotiming.verify_step keys st step gt).1 step gt').2.2 =
            Reason.REPLAY ∧
          (poci_demotiming.verify_step keys
              (poci_demotiming.verify_step keys st step gt).1 step gt').1.used_proofs =
            (poci_demotiming.verify_step keys st step gt).1.used_proofs ∧
          (poci_demotiming.verify_step keys
              (poci_demotiming.verify_step keys st step gt).1 step gt').1.last_timestamp =
            (poci_demotiming.verify_step keys st step gt).1.last_timestamp) ∧
    (∀ (c : poci_demoreplay.Controller) (h : String) (ts now : Int),
        h ∈ c.proof_cache →
        (poci_demoreplay.verify_proof c h ts now).2.2 = true ∧
          (poci_demoreplay.verify_proof c h ts now).1.proof_cache =
            c.proof_cache) := by
  refine ⟨?_, ?_, ?_⟩
  · intro keys st step gt hf
    rcases Bool.eq_false_or_eq_true
        (poci_demotiming.verify_signature (keys step.model_id) step.signature
          step.hash) with h1 | h1
    · by_cases h2 : (step.model_id, step.hash, step.signature) ∈ st.used_proofs
      · rw [poci_demotiming.verify_step_replay h1 h2]
        exact ⟨rfl, rfl, rfl⟩
      · by_cases h3 : step.timestamp > gt + poci_demotiming.MAX_FUTURE_DRIFT
        · rw [poci_demotiming.verify_step_future h1 h2 h3]
          exact ⟨rfl, rfl, rfl⟩
        · rcases Bool.eq_false_or_eq_true
              (poci_demotiming.backdated st step.model_id step.timestamp)
              with h4 | h4
          · rw [poci_demotiming.verify_step_backdated h1 h2 h3 h4]
            exact ⟨rfl, rfl, rfl⟩
          · rw [poci_demotiming.verify_step_ok h1 h2 h3 h4] at hf
            cases hf
    · rw [poci_demotiming.verify_step_badsig h1]
      exact ⟨rfl, rfl, rfl⟩
  · intro keys st step gt gt' hs
    rcases Bool.eq_false_or_eq_true
        (poci_demotiming.verify_signature (keys step.model_id) step.signature
          step.hash) with h1 | h1
    · by_cases h2 : (step.model_id, step.hash, step.signature) ∈ st.used_proofs
      · rw [poci_demotiming.verify_step_replay h1 h2] at hs
        cases hs
      · by_cases h3 : step.timestamp > gt + poci_demotiming.MAX_FUTURE_DRIFT
        · rw [poci_demotiming.verify_step_future h1 h2 h3] at hs
          cases hs
        · rcases Bool.eq_false_or_eq_true
              (poci_demotiming.backdated st step.model_id step.timestamp)
              with h4 | h4
          · rw [poci_demotiming.verify_step_backdated h1 h2 h3 h4] at hs
            cases hs
          · rw [poci_demotiming.verify_step_ok h1 h2 h3 h4]
            rw [poci_demotiming.verify_step_replay h1 (List.mem_cons_self _ _)]
            exact ⟨rfl, rfl, rfl⟩
    · rw [poci_demotiming.verify_step_badsig h1] at hs
      cases hs
  · intro c h ts now hmem
    unfold poci_demoreplay.verify_proof
    simp [hmem]

/-- C2 witness: identity "m" submits the honest step once — accepted — and
then verbatim a second time: the second call returns REPLAY and leaves the
used-proof set and last timestamp as they were after the first call; a
cached hash re-checked by `verify_proof` is flagged as replay without
growing the cache. -/
theorem C2_failure_frame_witness :
    ((poci_demotiming.verify_step keysK
        (poci_demotiming.verify_step keysK poci_demotiming.initState stepM 1000).1
        stepM 1005).2.2 = Reason.REPLAY ∧
      (poci_demotiming.verify_step keysK
          (poci_demotiming.verify_step keysK poci_demotiming.initState stepM 1000).1
          stepM 1005).1.used_proofs =
        (poci_demotiming.verify_step keysK poci_demotiming.initState stepM 1000).1.used_proofs ∧
      (poci_demotiming.verify_step keysK
          (poci_demotiming.verify_step keysK poci_demotiming.initState stepM 1000).1
          stepM 1005).1.last_timestamp =
        (poci_demotiming.verify_step keysK poci_demotiming.initState stepM 1000).1.last_timestamp) ∧
    ((poci_demoreplay.verify_proof ⟨1, 1, 0, ["h1"]⟩ "h1" 0 0).2.2 = true ∧
      (poci_demoreplay.verify_proof ⟨1, 1, 0, ["h1"]⟩ "h1" 0 0).1.proof_cache =
        (⟨1, 1, 0, ["h1"]⟩ : poci_demoreplay.Controller).proof_cache) :=
  ⟨C2_failure_frame.2.1 keysK poci_demotiming.initState stepM 1000 1005 (by decide),
   C2_failure_frame.2.2 ⟨1, 1, 0, ["h1"]⟩ "h1" 0 0 (by decide)⟩

/-- C3: both embedded pipelines apply their checks in the fixed order
signature validity, replay detection, future bound, backdated bound,
short-circuiting at the first failure: each call's reason equals the
spec-side cascade `specOrder` of the four check conditions; in particular
a proof with an invalid signature whose (hash, signature) pair is already
in the used set is rejected with BAD_SIGNATURE, not REPLAY. -/
theorem C3_check_order :
    (∀ (keys : String → String) (st : poci_demotiming.TimingState)
        (step : poci_demotiming.Step) (gt : Int),
        (poci_demotiming.verify_step keys st step gt).2.2 =
          specOrder
            (poci_demotiming.verify_signature (keys step.model_id)
              step.signature step.hash)
            (decide ((step.model_id, step.hash, step.signature) ∈ st.used_proofs))
            (decide (step.timestamp > gt + poci_demotiming.MAX_FUTURE_DRIFT))
            (poci_demotiming.backdated st step.model_id step.timestamp)) ∧
    (∀ (keys : String → String) (st : poci_demotiming.TimingState)
        (model_id : String) (ts : Int) (h sig : String),
        (poci_demosim.verify_event keys st model_id ts h sig).2.2 =
          specOrder (poci_demosim.verify_signature (keys model_id) sig h)
            (decide ((model_id, h, sig) ∈ st.used_proofs))
            (decide (ts > ts + poci_demotiming.MAX_FUTURE_DRIFT))
            (poci_demotiming.backdated st model_id ts)) ∧
    (poci_demotiming.verify_step keysK ⟨[], [], [("m", "h", "bad")]⟩ stepBad
        1000).2.2 = Reason.BAD_SIGNATURE := by
  refine ⟨?_, ?_, rfl⟩
  · intro keys st step gt
    rcases Bool.eq_false_or_eq_true
        (poci_demotiming.verify_signature (keys step.model_id) step.signature
          step.hash) with h1 | h1
    · by_cases h2 : (step.model_id, step.hash, step.signature) ∈ st.used_proofs
      · rw [poci_demotiming.verify_step_replay h1 h2]
        simp [specOrder, h1, h2]
      · by_cases h3 : step.timestamp > gt + poci_demotiming.MAX_FUTURE_DRIFT
        · rw [poci_demotiming.verify_step_future h1 h2 h3]
          simp [specOrder, h1, h2, h3]
        · rcases Bool.eq_false_or_eq_true
              (poci_demotiming.backdated st step.model_id step.timestamp)
              with h4 | h4
          · rw [poci_demotiming.verify_step_backdated h1 h2 h3 h4]
            simp [specOrder, h1, h2, h3, h4]
          · rw [poci_demotiming.verify_step_ok h1 h2 h3 h4]
            simp [specOrder, h1, h2, h3, h4]
    · rw [poci_demotiming.verify_step_badsig h1]
      simp [specOrder, h1]
  · intro keys st model_id ts h sig
    have h3 : ¬ ts > ts + poci_demotiming.MAX_FUTURE_DRIFT := by
      unfold poci_demotiming.MAX_FUTURE_DRIFT; omega
    rcases Bool.eq_false_or_eq_true
        (poci_demosim.verify_signature (keys model_id) sig h) with h1 | h1
    · by_cases h2 : (model_id, h, sig) ∈ st.used_proofs
      · rw [poci_demosim.verify_event_replay h1 h2]
        simp [specOrder, h1, h2]
      · rcases Bool.eq_false_or_eq_true
            (poci_demotiming.backdated st model_id ts) with h4 | h4
        · rw [poci_demosim.verify_event_backdated h1 h2 h4]
          simp [specOrder, h1, h2, h3, h4]
        · rw [poci_demosim.verify_event_ok h1 h2 h4]
          simp [specOrder, h1, h2, h3, h4]
    · rw [poci_demosim.verify_event_badsig h1]
      simp [specOrder, h1]

/-- C4: with the pipeline constants MAX_FUTURE_DRIFT = 30 and
MAX_BACKWARD_DRIFT = 10, once the signature and replay checks pass, a
timestamp beyond reference_time + MAX_FUTURE_DRIFT is rejected as
TIME_FUTURE; otherwise a timestamp with `ts + MAX_BACKWARD_DRIFT` behind
the last accepted timestamp is rejected as TIME_BACKDATED; and a proof
within both bounds is accepted with OK. -/
theorem C4_timestamp_bounds :
    poci_demotiming.MAX_FUTURE_DRIFT = 30 ∧
    poci_demotiming.MAX_BACKWARD_DRIFT = 10 ∧
    ∀ (keys : String → String) (st : poci_demotiming.TimingState)
      (step : poci_demotiming.Step) (gt : Int),
      poci_demotiming.verify_signature (keys step.model_id) step.signature
          step.hash = true →
      (step.model_id, step.hash, step.signature) ∉ st.used_proofs →
      ((step.timestamp > gt + poci_demotiming.MAX_FUTURE_DRIFT →
          (poci_demotiming.verify_step keys st step gt).2 =
            (false, Reason.TIME_FUTURE)) ∧
        (¬ step.timestamp > gt + poci_demotiming.MAX_FUTURE_DRIFT →
          poci_demotiming.backdated st step.model_id step.timestamp = true →
          (poci_demotiming.verify_step keys st step gt).2 =
            (false, Reason.TIME_BACKDATED)) ∧
        (¬ step.timestamp > gt + poci_demotiming.MAX_FUTURE_DRIFT →
          poci_demotiming.backdated st step.model_id step.timestamp = false →
          (poci_demotiming.verify_step keys st step gt).2 =
            (true, Reason.OK))) := by
  refine ⟨rfl, rfl, ?_⟩
  intro keys st step gt h1 h2
  refine ⟨?_, ?_, ?_⟩
  · intro h3
    rw [poci_demotiming.verify_step_future h1 h2 h3]
  · intro h3 h4
    rw [poci_demotiming.verify_step_backdated h1 h2 h3 h4]
  · intro h3 h4
    rw [poci_demotiming.verify_step_ok h1 h2 h3 h4]

/-- C4 witness: from the fresh state at reference time 1000, the honest
step timestamped 1000 is accepted with OK, while the one timestamped 2000
(1000 s ahead, beyond the 30 s bound) is rejected with TIME_FUTURE. -/
theorem C4_timestamp_bounds_witness :
    (poci_demotiming.verify_step keysK poci_demotiming.initState stepM
        1000).2 = (true, Reason.OK) ∧
      (poci_demotiming.verify_step keysK poci_demotiming.initState stepFuture
        1000).2 = (false, Reason.TIME_FUTURE) :=
  ⟨(C4_timestamp_bounds.2.2 keysK poci_demotiming.initState stepM 1000 (by decide)
      (by decide)).2.2 (by decide) rfl,
   (C4_timestamp_bounds.2.2 keysK poci_demotiming.initState stepFuture 1000
      (by decide) (by decide)).1 (by decide)⟩

/-- C5: the claim (and the docstring of `crypto_utils.verify_signature`)
promise a plain True/False for signatures of any length, but PyNaCl's
`VerifyKey.verify` raises `nacl.exceptions.ValueError` — not the
`BadSignatureError` the wrapper catches — when the signature is not
exactly 64 bytes, so the wrapper propagates the exception on a truncated
63-byte signature (even under a key accepting everything); a 64-byte
invalid signature does return False, and a valid one True. -/
theorem C5_truncated_signature_raises :
    crypto_utils.verify_signature vkAll [] (List.replicate 63 0) =
        Except.error pynacl.NaClError.ValueError ∧
      crypto_utils.verify_signature vkNone [] (List.replicate 64 0) =
        Except.ok false ∧
      crypto_utils.verify_signature vkAll [] (List.replicate 64 0) =
        Except.ok true :=
  ⟨rfl, rfl, rfl⟩

/-- C6 (counterexample): the byte message the hash is computed from is the
raw concatenation of the fields with no separator, which is ambiguous:
moving the byte 'q' (113) from the end of `prev_hash` to the front of
`payload` yields a distinct field tuple with the identical canonical byte
message. -/
theorem C6_counterexample_ambiguous_canonicalization :
    crypto_utils.hashInput "a" 0 "pq" [] 0 =
        crypto_utils.hashInput "a" 0 "p" [113] 0 ∧
      (("pq", ([] : List Nat)) ≠ (("p" : String), ([113] : List Nat))) :=
  ⟨by decide, by decide⟩

/-- C6 (amended): the signer (models.py `make_event`) and the verifier
(run_demo.py `verify_event`) build the identical "|"-separated byte
message from (model_id, index, prev_hash, payload_hash, ts) — so signature
verification is over exactly the bytes that were signed — but that message
uses the payload *hash* in place of the payload and is not the byte string
the event hash is computed from (they differ already at byte index 1),
and the hash's separator-free input concatenation is not injective in the
field tuple (see the counterexample). -/
theorem C6_canonical_message :
    (∀ (model_id : String) (index : Nat) (prev payload_h : String) (ts : Nat),
        models.msg_bytes model_id index prev payload_h ts =
          run_demo.msg_bytes model_id index prev payload_h ts) ∧
    (∀ payload_h : String,
        (models.msg_bytes "m" 0 "GENESIS" payload_h 0).get? 1 = some 124) ∧
    (crypto_utils.hashInput "m" 0 "GENESIS" [] 0).get? 1 = some 0 := by
  refine ⟨?_, ?_, by decide⟩
  · intro model_id index prev payload_h ts
    rfl
  · intro ph
    have hL : models.msg_bytes "m" 0 "GENESIS" ph 0 =
        crypto_utils.strBytes "m|0|GENESIS|" ++ crypto_utils.strBytes ph ++
          crypto_utils.strBytes "|" ++ crypto_utils.strBytes "0" := by
      show crypto_utils.strBytes ((("m|0|GENESIS|" ++ ph) ++ "|") ++ "0") = _
      rw [strBytes_append, strBytes_append, strBytes_append]
    rw [hL]
    have hlit : crypto_utils.strBytes "m|0|GENESIS|" =
        [109, 124, 48, 124, 71, 69, 78, 69, 83, 73, 83, 124] := by decide
    rw [List.append_assoc, List.append_assoc, hlit]
    rfl

/-- C9: in the embedding every hidden input of the engine (clock, digest
function, key registry) is an explicit argument, so a run is a pure
function of its inputs: the event hash is a function of exactly
(model_id, index, prev_hash, payload, timestamp) — equal field tuples give
byte-identical digests under any digest function — and two independent
engine instances (`runTiming` folds from the fresh initial state) fed the
same submission sequence return equal outcome sequences and final states. -/
theorem C9_determinism :
    (∀ (blake2b : List Nat → String) (m m' : String) (i i' : Nat)
        (p p' : String) (pay pay' : List Nat) (t t' : Nat),
        m = m' → i = i' → p = p' → pay = pay' → t = t' →
        crypto_utils.hash_payload blake2b m i p pay t =
          crypto_utils.hash_payload blake2b m' i' p' pay' t') ∧
    (∀ (keys : String → String) (steps : List (poci_demotiming.Step × Int)),
        runTiming keys steps = runTiming keys steps) := by
  constructor
  · intro b m m' i i' p p' pay pay' t t' hm hi hp hpay ht
    rw [hm, hi, hp, hpay, ht]
  · intro keys steps
    rfl

/-- C9 witness: the hash-purity part applied at a concrete tuple. -/
theorem C9_determinism_witness :
    crypto_utils.hash_payload (fun _ => "digest") "m" 0 "GENESIS" [] 0 =
      crypto_utils.hash_payload (fun _ => "digest") "m" 0 "GENESIS" [] 0 :=
  C9_determinism.1 (fun _ => "digest") "m" "m" 0 0 "GENESIS" "GENESIS" [] [] 0 0
    rfl rfl rfl rfl rfl

end PoCI
